import Mathlib

set_option maxRecDepth 8192

/-!
Shallow embedding of the two core components of the Lelana.id repository:
the upload guard (`app/services/file_handler.py`) and the chatbot
orchestrator (`app/services/chatbot_handler.py`), together with theorems
settling the behavioural claims about them.

External collaborators (libmagic sniffing, uuid4 generation, the Serper
search HTTP call and the Gemini HTTP call) are modelled as explicit
environment records supplying their outcomes; the control flow of the
two Python functions is translated statement by statement.
-/

/-- Python's `str.strip()` whitespace set (Unicode whitespace characters). -/
def pyIsSpace (c : Char) : Bool :=
  c == ' ' || c == '\t' || c == '\n' || c == '\r' || c == '\x0b' || c == '\x0c' ||
  c == '\x1c' || c == '\x1d' || c == '\x1e' || c == '\x1f' || c == '\x85' ||
  c == ' ' || c == ' ' ||
  (' ' ≤ c && c ≤ ' ') ||
  c == ' ' || c == ' ' || c == ' ' || c == ' ' || c == '　'

/-- Python's `s.strip()`: drop leading and trailing whitespace. -/
def pyStrip (s : String) : String :=
  String.mk (((s.toList.dropWhile pyIsSpace).reverse.dropWhile pyIsSpace).reverse)

/-- Python's `needle in hay` substring test. -/
def strContains (hay needle : String) : Bool :=
  (List.range (hay.toList.length + 1)).any
    (fun i => needle.toList.isPrefixOf (hay.toList.drop i))

/-- Fuelled core of Python's `str.replace`: replace non-overlapping
occurrences of `needle` left to right.  Fuel bounds the recursion; it is
instantiated with the length of the subject, which suffices because every
step consumes at least one character. -/
def replaceFuel (needle repl : List Char) : Nat → List Char → List Char
  | 0, l => l
  | _ + 1, [] => []
  | fuel + 1, c :: rest =>
    if needle.isPrefixOf (c :: rest) then
      repl ++ replaceFuel needle repl fuel (rest.drop (needle.length - 1))
    else
      c :: replaceFuel needle repl fuel rest

/-- Python's `s.replace(pat, repl)` for a non-empty pattern (the embedding
only applies it to the literal skip marker). -/
def pyReplace (s pat repl : String) : String :=
  String.mk (replaceFuel pat.toList repl.toList s.toList.length s.toList)

/-- Index of the last occurrence of `c` in `cs` (`str.rfind`): `-1` if absent. -/
def rfindChar (cs : List Char) (c : Char) : Int :=
  (List.range cs.length).foldl
    (fun acc i => if cs.getD i ' ' == c then (i : Int) else acc) (-1)

/-- The extension component of CPython's `posixpath.splitext`: the suffix
from the last dot, provided that dot lies after the last `/` and the
basename does not consist solely of leading dots up to it. -/
def splitextExt (p : String) : String :=
  let cs := p.toList
  let sepIndex := rfindChar cs '/'
  let dotIndex := rfindChar cs '.'
  if sepIndex < dotIndex then
    if (List.range cs.length).any
        (fun i => decide (sepIndex < (i : Int)) && decide ((i : Int) < dotIndex) &&
          (cs.getD i ' ' != '.')) then
      String.mk (cs.drop dotIndex.toNat)
    else ""
  else ""

/-- One uploaded file: the client-supplied name and the byte stream. -/
structure UploadCandidate where
  filename : String
  content : List Nat
deriving DecidableEq

/-- Environment of `save_pictures`: the libmagic sniffer (from the leading
bytes handed to `from_buffer`) and the stream of `uuid.uuid4()` strings,
one per processed candidate. -/
structure FileEnv where
  sniff : List Nat → String
  uuids : Nat → String

/-- `allowed_mimes` from `file_handler.py`. -/
def allowed_mimes : List String := ["image/jpeg", "image/png", "image/gif"]

/-- Result of a `save_pictures` call: the returned names, or the
`ValueError` (the spec's `InvalidFileType`) carrying the detected type. -/
inductive SaveOutcome where
  | ok (names : List String)
  | err (detected : String)
deriving DecidableEq

/-- Whether a candidate passes the MIME check of `save_pictures`. -/
def sniffedOk (env : FileEnv) (p : UploadCandidate) : Bool :=
  allowed_mimes.contains (env.sniff (p.content.take 2048))

/-- The loop of `save_pictures`, processing candidates in order.  The first
component collects the files actually written to the upload folder (name
and byte content); the second is the outcome.  Candidate `i` is validated
and, if valid, immediately written before candidate `i+1` is examined;
on the first invalid candidate the `ValueError` is raised, leaving the
files written so far on disk. -/
def savePicturesAux (env : FileEnv) : Nat → List UploadCandidate →
    List (String × List Nat) × SaveOutcome
  | _, [] => ([], SaveOutcome.ok [])
  | i, picture :: rest =>
    let file_head := picture.content.take 2048
    let detected_mime := env.sniff file_head
    if allowed_mimes.contains detected_mime then
      let picture_fn := env.uuids i ++ splitextExt picture.filename
      let r := savePicturesAux env (i + 1) rest
      ((picture_fn, picture.content) :: r.1,
        match r.2 with
        | SaveOutcome.ok names => SaveOutcome.ok (picture_fn :: names)
        | SaveOutcome.err d => SaveOutcome.err d)
    else
      ([], SaveOutcome.err detected_mime)

/-- `save_pictures(form_pictures)` from `file_handler.py`. -/
def save_pictures (env : FileEnv) (form_pictures : List UploadCandidate) :
    List (String × List Nat) × SaveOutcome :=
  savePicturesAux env 0 form_pictures

/-- The stored files that a run over `pics` starting at uuid index `i`
produces when every candidate is written. -/
def storedFiles (env : FileEnv) : Nat → List UploadCandidate → List (String × List Nat)
  | _, [] => []
  | i, p :: rest =>
    (env.uuids i ++ splitextExt p.filename, p.content) :: storedFiles env (i + 1) rest

/-- Characters allowed by `[0-9a-f-]`. -/
def isHexDashChar (c : Char) : Bool :=
  c == '-' || c.isDigit || ('a' ≤ c && c ≤ 'f')

/-- Shape of `str(uuid.uuid4())`: 36 characters over `[0-9a-f-]`. -/
def isUuidLike (s : String) : Bool :=
  s.toList.length == 36 && s.toList.all isHexDashChar

/-- The extensions accepted by the spec's stored-name pattern. -/
def storedExts : List String := [".jpg", ".jpeg", ".png", ".gif"]

/-- The spec's stored-name pattern `^[0-9a-f-]{36}\.(jpg|jpeg|png|gif)$`. -/
def matchesStoredPattern (s : String) : Bool :=
  (s.toList.take 36).all isHexDashChar &&
    storedExts.contains (String.mk (s.toList.drop 36))

/-- A concrete sniffer for witnesses: leading byte `0xFF` classifies as
JPEG, anything else as plain text. -/
def sniffDemo (bs : List Nat) : String :=
  if bs.headD 0 == 255 then "image/jpeg" else "text/plain"

/-- A concrete uuid stream for witnesses. -/
def uuidDemo (_ : Nat) : String := "0a1b2c3d-4e5f-6071-8293-a4b5c6d7e8f9"

/-- Witness environment for the upload guard. -/
def fileEnvDemo : FileEnv := ⟨sniffDemo, uuidDemo⟩

/-- One entry of the `organic` list of a Serper response; `title` and
`snippet` keys may be absent (`item.get(..., "")` defaults them). -/
structure SearchItem where
  title? : Option String
  snippet? : Option String
deriving DecidableEq

/-- Well-typed outcomes of the one HTTP request `search_web` may issue: a
`RequestException` (transport failure or non-2xx status via
`raise_for_status`), or a parsed JSON body that is a dict whose `organic`
key is either absent or a list of items.  Ill-typed bodies, on which the
source raises an uncaught exception, are covered by the full model
`SearchNetX`; `get_bot_responseX_agrees` shows this type is exactly its
non-raising fragment. -/
inductive SearchNet where
  | err
  | ok (organic? : Option (List SearchItem))
deriving DecidableEq

/-- Well-typed outcomes of the one HTTP request `call_gemini` may issue: a
failure of the request, or a parsed JSON body in which the lookup
`candidates[0].content.parts[0].text` either succeeds with a string or
fails with a caught `KeyError`/`IndexError` (modelled `none`).  Payloads
on which the lookup raises an uncaught `TypeError`, or yields a
non-string value that later crashes `answer.strip()`, are covered by the
full model `GemNetX`; `get_bot_responseX_agrees` shows this type is
exactly its non-raising fragment. -/
inductive GemNet where
  | err
  | ok (text? : Option String)
deriving DecidableEq

/-- Environment of one `get_bot_response` invocation: whether each API key
is configured (truthy), and the outcome each upstream HTTP call would
have if issued. -/
structure ChatEnv where
  serperKeyPresent : Bool
  geminiKeyPresent : Bool
  searchNet : SearchNet
  gemNet : GemNet
deriving DecidableEq

/-- `search_web(query)` from `chatbot_handler.py`.  Returns the organic
results list together with whether the HTTP request was actually issued
(with no configured key the function returns `[]` without any call). -/
def search_web (env : ChatEnv) (_query : String) : List SearchItem × Bool :=
  if env.serperKeyPresent then
    match env.searchNet with
    | SearchNet.err => ([], true)
    | SearchNet.ok organic? => (organic?.getD [], true)
  else
    ([], false)

/-- The string returned by `call_gemini` when `GEMINI_API_KEY` is unset. -/
def geminiKeyMissingMsg : String := "Error: Kunci API Gemini belum dikonfigurasi."

/-- `call_gemini(prompt)` from `chatbot_handler.py`: `some` text on
success (or the fixed error string when the key is unconfigured), `none`
when the request fails or the response shape is unexpected. -/
def call_gemini (env : ChatEnv) (_prompt : String) : Option String :=
  if env.geminiKeyPresent then
    match env.gemNet with
    | GemNet.err => none
    | GemNet.ok text? => text?
  else
    some geminiKeyMissingMsg

/-- The fixed apology string of `get_bot_response`. -/
def botApology : String :=
  "Maaf, sepertinya Putri sedang mengalami sedikit kendala teknis. Coba lagi beberapa saat lagi ya! 😢"

/-- The skip marker `no_search_flag` of `get_bot_response`. -/
def no_search_flag : String := "./skip"

/-- The direct (no-web-context) persona prompt of `get_bot_response`. -/
def directPrompt (user_query : String) : String :=
  "Kamu adalah Putri, asisten virtual yang ramah, ceria, imut, dan lembut untuk platform wisata Lelana.id. " ++
  "Kamu seperti cewek Indonesia yang baik hati, selalu hangat dan penuh perhatian ke pengguna, bikin mereka ngerasa nyaman kayak lagi chatting sama sahabat dekat di WhatsApp. " ++
  "Jawab semua pertanyaan dalam bahasa Indonesia sepenuhnya, dengan gaya bicara manja tapi profesional: pakai paragraf pendek yang terstruktur, mudah dibaca, tambahin emoji lucu kalau pas aja, dan selalu tekankan info wisata yang akurat. " ++
  "Kalau pengetahuanmu terbatas, bilang jujur dan saranin cari info lebih lanjut, jangan ngawur atau tambah cerita yang gak perlu. " ++
  "Jawab pertanyaan berikut se-informatif dan seakurat mungkin berdasarkan pengetahuan umum kamu: \"" ++ user_query ++ "\""

/-- The search-augmented persona prompt of `get_bot_response`. -/
def augPrompt (user_query summary : String) : String :=
  "Kamu adalah Putri, asisten virtual yang ramah, ceria, imut, dan lembut untuk platform wisata Lelana.id.\n" ++
  "Kamu seperti cewek Indonesia yang baik hati, selalu bucin ke pengguna dengan perhatian penuh, bikin mereka ngerasa spesial kayak prioritas utama. " ++
  "Jawab semua dalam bahasa Indonesia sepenuhnya, gaya bicara manja, hangat, mudah dibaca: pakai paragraf pendek yang terstruktur kayak chatting di WhatsApp, tambahin emoji lucu kalau pas aja, tapi tetep informatif dan sopan.\n" ++
  "Berikut adalah beberapa informasi relevan dari web terkait pertanyaan pengguna, gunakan ini sebagai referensi utama tapi crosscheck kebenarannya dengan pengetahuan umum kamu:\n\n" ++
  summary ++ "\n\n" ++
  "Berdasarkan informasi tersebut, improve dan jawab pertanyaan berikut dengan 100% sesuai konteks: kalau ada yang gak akurat di summary, koreksi dengan info yang bener, jangan tambah-tambah yang gak relevan, dan selalu fokus ke wisata Lelana.id: \"" ++ user_query ++ "\". " ++
  "Kalau info dari web kurang lengkap, tambahin dari pengetahuanmu tapi bilang sumbernya jujur ya!"

/-- The summary loop of `get_bot_response`: one `- {title}: {snippet}\n`
line per retained search result, in order. -/
def mkSummary (items : List SearchItem) : String :=
  items.foldl
    (fun acc item => acc ++ "- " ++ item.title?.getD "" ++ ": " ++ item.snippet?.getD "" ++ "\n") ""

/-- Observable outcome of one `get_bot_response` call: the returned string,
whether `search_web` was invoked, whether a search HTTP request was
issued, and the prompt handed to `call_gemini`. -/
structure BotTrace where
  response : String
  searchInvoked : Bool
  searchHttp : Bool
  prompt : String
deriving DecidableEq

/-- The tail of `get_bot_response` after the prompt is chosen: invoke
Gemini, fall back to the apology on `None`, else strip the answer. -/
def mkTrace (env : ChatEnv) (prompt : String) (invoked http : Bool) : BotTrace :=
  { response :=
      match call_gemini env prompt with
      | none => botApology
      | some answer => pyStrip answer,
    searchInvoked := invoked, searchHttp := http, prompt := prompt }

/-- `get_bot_response(user_query)` from `chatbot_handler.py`. -/
def get_bot_response (env : ChatEnv) (user_query : String) : BotTrace :=
  if strContains user_query no_search_flag then
    let stripped := pyStrip (pyReplace user_query no_search_flag "")
    mkTrace env (directPrompt stripped) false false
  else
    let sr := search_web env user_query
    if sr.1.isEmpty then
      mkTrace env (directPrompt user_query) true sr.2
    else
      mkTrace env (augPrompt user_query (mkSummary (sr.1.take 3))) true sr.2

/-- Environment with both keys configured, for chatbot witnesses. -/
def envSearchDemo : ChatEnv :=
  ⟨true, true, SearchNet.ok (some [⟨some "T1", some "S1"⟩]), GemNet.ok (some "Halo!")⟩

/-- Environment whose Gemini request fails. -/
def envGemFail : ChatEnv := ⟨false, true, SearchNet.err, GemNet.err⟩

/-- Environment: search request fails, generation succeeds with a
whitespace-only text. -/
def envC6 : ChatEnv := ⟨true, true, SearchNet.err, GemNet.ok (some " ")⟩

/-- Environment: search request fails, generation succeeds with real text. -/
def envC6ok : ChatEnv := ⟨true, true, SearchNet.err, GemNet.ok (some "Halo kak! ")⟩

/-- Five organic search results with distinct titles and snippets. -/
def fiveItems : List SearchItem :=
  [⟨some "T1", some "S1"⟩, ⟨some "T2", some "S2"⟩, ⟨some "T3", some "S3"⟩,
   ⟨some "T4", some "S4"⟩, ⟨some "T5", some "S5"⟩]

/-- Environment whose search call returns five organic results. -/
def envFive : ChatEnv :=
  ⟨true, true, SearchNet.ok (some fiveItems), GemNet.ok (some "ok")⟩

/-- An uncaught Python exception propagating out of `get_bot_response`. -/
inductive PyExn where
  | typeError
  | attributeError
deriving DecidableEq

/-- Full outcome of the search HTTP request, extending `SearchNet` with the
ill-typed payload shapes the source does not guard against.
`err`: a `RequestException` (transport failure, non-2xx status via
`raise_for_status`), caught and treated as no results.
`badBody`: the parsed JSON body cannot be consumed as assumed — a non-dict
body makes `data.get` raise `AttributeError` inside `search_web`; a
non-list `organic` value or non-dict items raise
`TypeError`/`AttributeError` when sliced or read in `get_bot_response`.
All of these raise before the generation request and propagate uncaught,
so the model raises at the search step.
`ok`: a dict body whose `organic` key is absent or a list of items. -/
inductive SearchNetX where
  | err
  | badBody
  | ok (organic? : Option (List SearchItem))
deriving DecidableEq

/-- Full outcome of the generation HTTP request, extending `GemNet` with
the ill-typed payload shapes the source does not guard against.
`err`: a `RequestException`, caught, so `call_gemini` returns `None`.
`badPath`: a step of `j["candidates"][0]["content"]["parts"][0]["text"]`
raises an exception outside the caught
`(RequestException, KeyError, IndexError)` — e.g. `TypeError` from
subscripting `null` or a number — propagating uncaught out of
`call_gemini`.
`ok none`: the lookup raises a caught `KeyError`/`IndexError`, or the
`text` value is JSON `null` (the lookup returns `None` either way).
`ok (some t)`: the lookup yields the string `t`.
`okNonStr`: the lookup yields a non-string, non-null value; `call_gemini`
returns it and `get_bot_response`'s `answer.strip()` then raises an
uncaught `AttributeError`. -/
inductive GemNetX where
  | err
  | badPath
  | ok (text? : Option String)
  | okNonStr
deriving DecidableEq

/-- The value `call_gemini` hands back to `get_bot_response`: Python
`None`, a string, or a non-string value extracted from the payload. -/
inductive GemReturn where
  | pyNone
  | str (s : String)
  | nonStr
deriving DecidableEq

/-- Environment of one `get_bot_response` invocation over the full outcome
space, including ill-typed upstream payloads. -/
structure ChatEnvX where
  serperKeyPresent : Bool
  geminiKeyPresent : Bool
  searchNet : SearchNetX
  gemNet : GemNetX
deriving DecidableEq

/-- `search_web(query)` over the full outcome space: the organic results
or the uncaught exception raised while consuming an ill-typed body,
together with whether the HTTP request was issued. -/
def search_webX (env : ChatEnvX) (_query : String) :
    Except PyExn (List SearchItem) × Bool :=
  if env.serperKeyPresent then
    match env.searchNet with
    | SearchNetX.err => (Except.ok [], true)
    | SearchNetX.badBody => (Except.error PyExn.attributeError, true)
    | SearchNetX.ok organic? => (Except.ok (organic?.getD []), true)
  else
    (Except.ok [], false)

/-- `call_gemini(prompt)` over the full outcome space: the returned value,
or the uncaught exception raised by an ill-typed payload lookup. -/
def call_geminiX (env : ChatEnvX) (_prompt : String) : Except PyExn GemReturn :=
  if env.geminiKeyPresent then
    match env.gemNet with
    | GemNetX.err => Except.ok GemReturn.pyNone
    | GemNetX.badPath => Except.error PyExn.typeError
    | GemNetX.ok none => Except.ok GemReturn.pyNone
    | GemNetX.ok (some t) => Except.ok (GemReturn.str t)
    | GemNetX.okNonStr => Except.ok GemReturn.nonStr
  else
    Except.ok (GemReturn.str geminiKeyMissingMsg)

/-- The tail of `get_bot_response` over the full outcome space: `None`
falls back to the apology, a string is stripped, a non-string value makes
`answer.strip()` raise `AttributeError`, and an exception from
`call_gemini` propagates. -/
def mkTraceX (env : ChatEnvX) (prompt : String) (invoked http : Bool) :
    Except PyExn BotTrace :=
  match call_geminiX env prompt with
  | Except.error e => Except.error e
  | Except.ok GemReturn.pyNone =>
      Except.ok ⟨botApology, invoked, http, prompt⟩
  | Except.ok (GemReturn.str answer) =>
      Except.ok ⟨pyStrip answer, invoked, http, prompt⟩
  | Except.ok GemReturn.nonStr => Except.error PyExn.attributeError

/-- `get_bot_response(user_query)` over the full outcome space: either the
trace of a completed run, or the uncaught exception the run raises. -/
def get_bot_responseX (env : ChatEnvX) (user_query : String) :
    Except PyExn BotTrace :=
  if strContains user_query no_search_flag then
    let stripped := pyStrip (pyReplace user_query no_search_flag "")
    mkTraceX env (directPrompt stripped) false false
  else
    let sr := search_webX env user_query
    match sr.1 with
    | Except.error e => Except.error e
    | Except.ok search_results =>
      if search_results.isEmpty then
        mkTraceX env (directPrompt user_query) true sr.2
      else
        mkTraceX env (augPrompt user_query (mkSummary (search_results.take 3)))
          true sr.2

/-- Embedding of the well-typed search outcomes into the full space. -/
def liftSearchNet : SearchNet → SearchNetX
  | SearchNet.err => SearchNetX.err
  | SearchNet.ok organic? => SearchNetX.ok organic?

/-- Embedding of the well-typed generation outcomes into the full space. -/
def liftGemNet : GemNet → GemNetX
  | GemNet.err => GemNetX.err
  | GemNet.ok text? => GemNetX.ok text?

/-- Embedding of a well-typed environment into the full space. -/
def liftChatEnv (env : ChatEnv) : ChatEnvX :=
  ⟨env.serperKeyPresent, env.geminiKeyPresent,
    liftSearchNet env.searchNet, liftGemNet env.gemNet⟩

/-- Full-space environment whose Gemini key is unconfigured. -/
def envNoGeminiX : ChatEnvX := ⟨false, false, SearchNetX.err, GemNetX.err⟩

/-- Full-space environment whose generation payload makes the key lookup
raise an uncaught `TypeError` (e.g. `candidates[0].content` is `null`). -/
def envBadPayloadX : ChatEnvX := ⟨false, true, SearchNetX.err, GemNetX.badPath⟩

/-- Full-space environment whose search body is not a JSON object, so
`data.get` raises an uncaught `AttributeError`. -/
def envBadSearchX : ChatEnvX :=
  ⟨true, true, SearchNetX.badBody, GemNetX.ok (some "Halo!")⟩

/-- Full-space environment with configured keys and well-typed payloads. -/
def envWellTypedX : ChatEnvX :=
  ⟨true, true, SearchNetX.ok (some [⟨some "T1", some "S1"⟩]),
    GemNetX.ok (some "Halo!")⟩

example : splitextExt "evil.txt" = ".txt" := by decide
example : splitextExt "photo.png" = ".png" := by decide
example : splitextExt "archive.tar.gz" = ".gz" := by decide
example : splitextExt ".hidden" = "" := by decide
example : splitextExt "noext" = "" := by decide
example : splitextExt "dir.d/noext" = "" := by decide
example : save_pictures fileEnvDemo [⟨"a.jpg", [255, 216]⟩] =
    ([("0a1b2c3d-4e5f-6071-8293-a4b5c6d7e8f9.jpg", [255, 216])],
      SaveOutcome.ok ["0a1b2c3d-4e5f-6071-8293-a4b5c6d7e8f9.jpg"]) := by decide
example : save_pictures fileEnvDemo [⟨"a.jpg", [255]⟩, ⟨"b.txt", [0]⟩] =
    ([("0a1b2c3d-4e5f-6071-8293-a4b5c6d7e8f9.jpg", [255])],
      SaveOutcome.err "text/plain") := by decide

example : strContains "halo ./skip dong" no_search_flag = true := by decide
example : strContains "halo dong" no_search_flag = false := by decide
example : pyStrip (pyReplace "./skip halo ./skip" no_search_flag "") = "halo" := by decide
example :
    (get_bot_response ⟨true, true, SearchNet.err, GemNet.ok (some " hai ")⟩ "halo").response =
      "hai" := by decide

/-- Every `get_bot_response` run ends by handing some prompt to `mkTrace`. -/
theorem get_bot_response_shape (env : ChatEnv) (q : String) :
    ∃ p invoked http, get_bot_response env q = mkTrace env p invoked http := by
  unfold get_bot_response
  by_cases h : strContains q no_search_flag = true
  · rw [if_pos h]
    exact ⟨_, _, _, rfl⟩
  · rw [if_neg h]
    by_cases h2 : (search_web env q).1.isEmpty = true
    · rw [if_pos h2]
      exact ⟨_, _, _, rfl⟩
    · rw [if_neg h2]
      exact ⟨_, _, _, rfl⟩

/-- Branch taken by `get_bot_response` when the skip marker is present. -/
theorem bot_marker_branch (env : ChatEnv) (q : String)
    (h : strContains q no_search_flag = true) :
    get_bot_response env q =
      mkTrace env (directPrompt (pyStrip (pyReplace q no_search_flag ""))) false false := by
  unfold get_bot_response
  rw [if_pos h]

/-- Branch taken by `get_bot_response` when the skip marker is absent. -/
theorem bot_no_marker_branch (env : ChatEnv) (q : String)
    (h : strContains q no_search_flag = false) :
    get_bot_response env q =
      (if (search_web env q).1.isEmpty then
        mkTrace env (directPrompt q) true (search_web env q).2
      else
        mkTrace env (augPrompt q (mkSummary ((search_web env q).1.take 3))) true
          (search_web env q).2) := by
  unfold get_bot_response
  rw [if_neg (by simp [h])]

/-- With a configured Serper key, `search_web` always issues its request. -/
theorem search_web_snd (env : ChatEnv) (q : String)
    (hkey : env.serperKeyPresent = true) :
    (search_web env q).2 = true := by
  cases h : env.searchNet <;> simp [search_web, hkey, h]

/-- With a configured Gemini key, a failed request or malformed payload
makes `call_gemini` return `none`. -/
theorem call_gemini_none (env : ChatEnv) (p : String)
    (hkey : env.geminiKeyPresent = true)
    (hfail : env.gemNet = GemNet.err ∨ env.gemNet = GemNet.ok none) :
    call_gemini env p = none := by
  rcases hfail with h | h <;> simp [call_gemini, hkey, h]

/-- When the search body is consumable, `search_webX` returns a result
list rather than raising. -/
theorem search_webX_ok (env : ChatEnvX) (q : String)
    (hs : env.searchNet ≠ SearchNetX.badBody) :
    ∃ results http, search_webX env q = (Except.ok results, http) := by
  by_cases hkey : env.serperKeyPresent = true
  · cases hnet : env.searchNet with
    | err => exact ⟨[], true, by simp [search_webX, hkey, hnet]⟩
    | badBody => exact absurd hnet hs
    | ok organic? => exact ⟨organic?.getD [], true, by simp [search_webX, hkey, hnet]⟩
  · have hkey' : env.serperKeyPresent = false := by simpa using hkey
    exact ⟨[], false, by simp [search_webX, hkey']⟩

/-- When the search body is consumable, every `get_bot_responseX` run ends
by handing some prompt to `mkTraceX`. -/
theorem get_bot_responseX_shape (env : ChatEnvX) (q : String)
    (hs : env.searchNet ≠ SearchNetX.badBody) :
    ∃ p invoked http, get_bot_responseX env q = mkTraceX env p invoked http := by
  unfold get_bot_responseX
  by_cases hm : strContains q no_search_flag = true
  · rw [if_pos hm]
    exact ⟨_, _, _, rfl⟩
  · rw [if_neg hm]
    obtain ⟨results, http, hsw⟩ := search_webX_ok env q hs
    simp only [hsw]
    by_cases he : results.isEmpty = true
    · rw [if_pos he]
      exact ⟨_, _, _, rfl⟩
    · rw [if_neg he]
      exact ⟨_, _, _, rfl⟩

/-- With the Gemini key configured and a well-typed generation payload,
`mkTraceX` completes with the apology or the trimmed generated text. -/
theorem mkTraceX_displayable (env : ChatEnvX) (prompt : String)
    (invoked http : Bool)
    (hkey : env.geminiKeyPresent = true)
    (hg1 : env.gemNet ≠ GemNetX.badPath)
    (hg2 : env.gemNet ≠ GemNetX.okNonStr) :
    ∃ tr, mkTraceX env prompt invoked http = Except.ok tr ∧
      (tr.response = botApology ∨
        ∃ t, env.gemNet = GemNetX.ok (some t) ∧ tr.response = pyStrip t) := by
  cases hg : env.gemNet with
  | err =>
    refine ⟨⟨botApology, invoked, http, prompt⟩, ?_, Or.inl rfl⟩
    simp [mkTraceX, call_geminiX, hkey, hg]
  | badPath => exact absurd hg hg1
  | ok t? =>
    cases t? with
    | none =>
      refine ⟨⟨botApology, invoked, http, prompt⟩, ?_, Or.inl rfl⟩
      simp [mkTraceX, call_geminiX, hkey, hg]
    | some t =>
      refine ⟨⟨pyStrip t, invoked, http, prompt⟩, ?_, Or.inr ⟨t, rfl, rfl⟩⟩
      simp [mkTraceX, call_geminiX, hkey, hg]
  | okNonStr => exact absurd hg hg2

/-- The `BotTrace` model is exactly the well-typed fragment of the full
model: on a lifted environment, `get_bot_responseX` completes without
raising and agrees with `get_bot_response`. -/
theorem get_bot_responseX_agrees (env : ChatEnv) (q : String) :
    get_bot_responseX (liftChatEnv env) q = Except.ok (get_bot_response env q) := by
  have hmk : ∀ p invoked http,
      mkTraceX (liftChatEnv env) p invoked http =
        Except.ok (mkTrace env p invoked http) := by
    intro p invoked http
    cases hgk : env.geminiKeyPresent with
    | false =>
      simp [mkTraceX, mkTrace, call_geminiX, call_gemini, liftChatEnv, hgk]
    | true =>
      cases hg : env.gemNet with
      | err =>
        simp [mkTraceX, mkTrace, call_geminiX, call_gemini, liftChatEnv,
          liftGemNet, hgk, hg]
      | ok t? =>
        cases t? with
        | none =>
          simp [mkTraceX, mkTrace, call_geminiX, call_gemini, liftChatEnv,
            liftGemNet, hgk, hg]
        | some t =>
          simp [mkTraceX, mkTrace, call_geminiX, call_gemini, liftChatEnv,
            liftGemNet, hgk, hg]
  have hsw : search_webX (liftChatEnv env) q =
      (Except.ok (search_web env q).1, (search_web env q).2) := by
    cases hsk : env.serperKeyPresent <;> cases hnet : env.searchNet <;>
      simp [search_webX, search_web, liftChatEnv, liftSearchNet, hsk, hnet]
  unfold get_bot_responseX get_bot_response
  by_cases hm : strContains q no_search_flag = true
  · rw [if_pos hm, if_pos hm]
    exact hmk _ _ _
  · rw [if_neg hm, if_neg hm]
    simp only [hsw]
    by_cases he : (search_web env q).1.isEmpty = true
    · rw [if_pos he, if_pos he]
      exact hmk _ _ _
    · rw [if_neg he, if_neg he]
      exact hmk _ _ _

/-- C2 counterexample: three upstream outcomes on which the claim fails.
With the Gemini key unconfigured, `get_bot_response` returns the raw
technical string `Error: Kunci API Gemini belum dikonfigurasi.` — neither
generated answer text nor the apology.  With a generation payload whose
key lookup raises an uncaught `TypeError` (e.g. `candidates[0].content`
null), or a search body that is not a JSON object, the run raises and
returns no string at all. -/
theorem C2_counterexample :
    (get_bot_responseX envNoGeminiX "halo kak" =
        Except.ok ⟨geminiKeyMissingMsg, true, false, directPrompt "halo kak"⟩ ∧
      geminiKeyMissingMsg ≠ botApology) ∧
    get_bot_responseX envBadPayloadX "halo kak" =
      Except.error PyExn.typeError ∧
    get_bot_responseX envBadSearchX "halo kak" =
      Except.error PyExn.attributeError := by
  exact ⟨⟨rfl, by decide⟩, rfl, rfl⟩

/-- C2 (amended): provided the Gemini API key is configured and the
upstream payloads are well-typed — the search body consumable and the
generated text, when present, a string or null — `get_bot_responseX`
completes without raising and returns either the fixed apology or the
trimmed generated answer text.  When the Gemini key is unconfigured the
raw string `Error: Kunci API Gemini belum dikonfigurasi.` is returned;
on an ill-typed payload the run raises an uncaught exception. -/
theorem C2_displayable_when_gemini_configured (env : ChatEnvX) (q : String)
    (hkey : env.geminiKeyPresent = true)
    (hs : env.searchNet ≠ SearchNetX.badBody)
    (hg1 : env.gemNet ≠ GemNetX.badPath)
    (hg2 : env.gemNet ≠ GemNetX.okNonStr) :
    ∃ tr, get_bot_responseX env q = Except.ok tr ∧
      (tr.response = botApology ∨
        ∃ t, env.gemNet = GemNetX.ok (some t) ∧ tr.response = pyStrip t) := by
  obtain ⟨p, invoked, http, hshape⟩ := get_bot_responseX_shape env q hs
  rw [hshape]
  exact mkTraceX_displayable env p invoked http hkey hg1 hg2

/-- C2 witness: a configured, well-typed environment where the amended
claim yields the trimmed generated text. -/
theorem C2_witness :
    envWellTypedX.geminiKeyPresent = true ∧
    envWellTypedX.searchNet ≠ SearchNetX.badBody ∧
    envWellTypedX.gemNet ≠ GemNetX.badPath ∧
    envWellTypedX.gemNet ≠ GemNetX.okNonStr ∧
    ∃ tr, get_bot_responseX envWellTypedX "halo" = Except.ok tr ∧
      (tr.response = botApology ∨
        ∃ t, envWellTypedX.gemNet = GemNetX.ok (some t) ∧
          tr.response = pyStrip t) :=
  ⟨rfl, by decide, by decide, by decide,
    C2_displayable_when_gemini_configured envWellTypedX "halo" rfl
      (by decide) (by decide) (by decide)⟩

/-- C5: with the Gemini key configured, a transport failure of the
generation call, or a response missing the expected keys, makes
`get_bot_response` return the fixed apology string verbatim. -/
theorem C5_generation_failure_yields_apology (env : ChatEnv) (q : String)
    (hkey : env.geminiKeyPresent = true)
    (hfail : env.gemNet = GemNet.err ∨ env.gemNet = GemNet.ok none) :
    (get_bot_response env q).response = botApology := by
  obtain ⟨p, invoked, http, hshape⟩ := get_bot_response_shape env q
  rw [hshape]
  simp [mkTrace, call_gemini_none env p hkey hfail]

/-- C5 witness: a failing generation call on a concrete query returns the
apology. -/
theorem C5_witness :
    envGemFail.geminiKeyPresent = true ∧
    envGemFail.gemNet = GemNet.err ∧
    (get_bot_response envGemFail "halo").response = botApology :=
  ⟨rfl, rfl, C5_generation_failure_yields_apology envGemFail "halo" rfl (Or.inl rfl)⟩

/-- C4: with the Serper key configured, a query containing the skip marker
never reaches `search_web` (so no search request is issued), and a query
without the marker invokes `search_web`, which issues the search request. -/
theorem C4_skip_marker_controls_search (env : ChatEnv) (q : String)
    (hkey : env.serperKeyPresent = true) :
    (strContains q no_search_flag = true →
        (get_bot_response env q).searchInvoked = false ∧
        (get_bot_response env q).searchHttp = false) ∧
    (strContains q no_search_flag = false →
        (get_bot_response env q).searchInvoked = true ∧
        (get_bot_response env q).searchHttp = true) := by
  constructor
  · intro h
    rw [bot_marker_branch env q h]
    exact ⟨rfl, rfl⟩
  · intro h
    rw [bot_no_marker_branch env q h]
    by_cases h2 : (search_web env q).1.isEmpty = true
    · rw [if_pos h2]
      exact ⟨rfl, search_web_snd env q hkey⟩
    · rw [if_neg h2]
      exact ⟨rfl, search_web_snd env q hkey⟩

/-- C4 witness: concrete queries with and without the marker. -/
theorem C4_witness :
    envSearchDemo.serperKeyPresent = true ∧
    strContains "cari hotel" no_search_flag = false ∧
    (get_bot_response envSearchDemo "cari hotel").searchHttp = true ∧
    strContains "cari hotel ./skip" no_search_flag = true ∧
    (get_bot_response envSearchDemo "cari hotel ./skip").searchHttp = false := by
  refine ⟨rfl, by decide, ?_, by decide, ?_⟩
  · exact ((C4_skip_marker_controls_search envSearchDemo "cari hotel" rfl).2 (by decide)).2
  · exact ((C4_skip_marker_controls_search envSearchDemo "cari hotel ./skip" rfl).1
      (by decide)).2

/-- C6 counterexample: search fails, generation succeeds — but with a
whitespace-only generated text, so `get_bot_response` returns the empty
string, not a non-empty one. -/
theorem C6_counterexample :
    strContains "apa kabar" no_search_flag = false ∧
    envC6.searchNet = SearchNet.err ∧
    envC6.gemNet = GemNet.ok (some " ") ∧
    (get_bot_response envC6 "apa kabar").prompt = directPrompt "apa kabar" ∧
    (get_bot_response envC6 "apa kabar").response = "" := by
  exact ⟨by decide, rfl, rfl, by decide, by decide⟩

/-- C6 (amended): without the marker, a failed search request is treated as
an empty result — the call does not fail, the generation call proceeds on
the no-context (direct) prompt, and when generation succeeds with text `t`
the function returns `t` trimmed (non-empty whenever `t` has a
non-whitespace character). -/
theorem C6_search_error_degrades_to_direct (env : ChatEnv) (q : String)
    (hq : strContains q no_search_flag = false)
    (hkey : env.serperKeyPresent = true)
    (hsearch : env.searchNet = SearchNet.err) :
    (get_bot_response env q).prompt = directPrompt q ∧
    (get_bot_response env q).searchHttp = true ∧
    (∀ t, env.geminiKeyPresent = true → env.gemNet = GemNet.ok (some t) →
      (get_bot_response env q).response = pyStrip t) := by
  have hsw : search_web env q = ([], true) := by simp [search_web, hkey, hsearch]
  rw [bot_no_marker_branch env q hq, hsw]
  refine ⟨rfl, rfl, ?_⟩
  intro t hgkey hg
  simp [mkTrace, call_gemini, hgkey, hg]

/-- C6 witness: failed search, successful generation, non-empty answer. -/
theorem C6_witness :
    strContains "rekomendasi pantai" no_search_flag = false ∧
    envC6ok.searchNet = SearchNet.err ∧
    (get_bot_response envC6ok "rekomendasi pantai").prompt =
      directPrompt "rekomendasi pantai" ∧
    (get_bot_response envC6ok "rekomendasi pantai").response = "Halo kak!" ∧
    "Halo kak!" ≠ "" := by
  have h := C6_search_error_degrades_to_direct envC6ok "rekomendasi pantai"
    (by decide) rfl rfl
  refine ⟨by decide, rfl, h.1, ?_, by decide⟩
  rw [h.2.2 "Halo kak! " rfl rfl]
  decide

/-- C7: with the marker absent and a successful search returning a
non-empty organic list, the generation prompt embeds exactly the first
`min 3 (length)` results, each reduced to its title and snippet, in list
order. -/
theorem C7_prompt_embeds_first_three (env : ChatEnv) (q : String)
    (results : List SearchItem)
    (hq : strContains q no_search_flag = false)
    (hkey : env.serperKeyPresent = true)
    (hnet : env.searchNet = SearchNet.ok (some results))
    (hne : results ≠ []) :
    (get_bot_response env q).prompt = augPrompt q (mkSummary (results.take 3)) ∧
    (results.take 3).length = min 3 results.length := by
  have hsw : search_web env q = (results, true) := by simp [search_web, hkey, hnet]
  rw [bot_no_marker_branch env q hq, hsw]
  rw [if_neg (by cases results with
    | nil => exact absurd rfl hne
    | cons a l => simp)]
  exact ⟨rfl, List.length_take 3 results⟩

/-- C7 witness: with five organic results only the first three are
summarized into the prompt. -/
theorem C7_witness :
    fiveItems.length = 5 ∧
    (get_bot_response envFive "wisata bandung").prompt =
      augPrompt "wisata bandung" (mkSummary (fiveItems.take 3)) ∧
    mkSummary (fiveItems.take 3) = "- T1: S1\n- T2: S2\n- T3: S3\n" := by
  refine ⟨by decide, ?_, by decide⟩
  exact (C7_prompt_embeds_first_three envFive "wisata bandung" fiveItems
    (by decide) rfl rfl (by decide)).1

/-- C10: when the query contains the skip marker, `get_bot_response`
removes every occurrence of `./skip`, trims the result, and embeds that
stripped query — never the original — in the direct generation prompt;
no search is performed. -/
theorem C10_marker_stripped_everywhere (env : ChatEnv) (q : String)
    (h : strContains q no_search_flag = true) :
    (get_bot_response env q).prompt =
      directPrompt (pyStrip (pyReplace q no_search_flag "")) ∧
    (get_bot_response env q).searchInvoked = false := by
  rw [bot_marker_branch env q h]
  exact ⟨rfl, rfl⟩

/-- C10 witness: both occurrences of the marker are removed and the result
trimmed before being embedded. -/
theorem C10_witness :
    strContains "./skip halo ./skip" no_search_flag = true ∧
    pyStrip (pyReplace "./skip halo ./skip" no_search_flag "") = "halo" ∧
    (get_bot_response envSearchDemo "./skip halo ./skip").prompt =
      directPrompt "halo" := by
  refine ⟨by decide, by decide, ?_⟩
  rw [(C10_marker_stripped_everywhere envSearchDemo "./skip halo ./skip" (by decide)).1]
  decide

/-- If some candidate fails the MIME check, `save_pictures` raises the
`ValueError` carrying the first failing candidate's detected type, having
already written exactly the candidates before it. -/
theorem savePicturesAux_first_bad (env : FileEnv) :
    ∀ (pics : List UploadCandidate) (i : Nat),
      (∃ p ∈ pics, sniffedOk env p = false) →
      savePicturesAux env i pics =
        (storedFiles env i (pics.takeWhile (sniffedOk env)),
         SaveOutcome.err (env.sniff
           (((pics.dropWhile (sniffedOk env)).headD ⟨"", []⟩).content.take 2048))) := by
  intro pics
  induction pics with
  | nil => intro i h; simp at h
  | cons p rest ih =>
    intro i h
    by_cases hok : sniffedOk env p = true
    · have hcond : allowed_mimes.contains (env.sniff (p.content.take 2048)) = true := hok
      have hrest : ∃ x ∈ rest, sniffedOk env x = false := by
        rcases h with ⟨x, hx, hxb⟩
        rcases List.mem_cons.mp hx with rfl | hx2
        · simp [hok] at hxb
        · exact ⟨x, hx2, hxb⟩
      simp only [savePicturesAux]
      rw [if_pos hcond, ih (i + 1) hrest]
      simp [storedFiles, List.takeWhile_cons, List.dropWhile_cons, hok]
    · have hok' : sniffedOk env p = false := Bool.not_eq_true _ ▸ eq_false_of_ne_true hok
      have hcond : ¬ allowed_mimes.contains (env.sniff (p.content.take 2048)) = true := by
        intro hc; exact hok (hc)
      simp only [savePicturesAux]
      rw [if_neg hcond]
      simp [storedFiles, List.takeWhile_cons, List.dropWhile_cons, hok']

/-- C1 counterexample: a batch whose second candidate sniffs as
`text/plain` raises the error, yet the first (valid) candidate has already
been written to the storage directory — the batch is not all-or-nothing. -/
theorem C1_counterexample :
    (save_pictures fileEnvDemo [⟨"a.jpg", [255]⟩, ⟨"b.txt", [0]⟩]).2 =
        SaveOutcome.err "text/plain" ∧
    (save_pictures fileEnvDemo [⟨"a.jpg", [255]⟩, ⟨"b.txt", [0]⟩]).1 =
        [("0a1b2c3d-4e5f-6071-8293-a4b5c6d7e8f9.jpg", [255])] ∧
    (save_pictures fileEnvDemo [⟨"a.jpg", [255]⟩, ⟨"b.txt", [0]⟩]).1 ≠ [] := by
  exact ⟨by decide, by decide, by decide⟩

/-- C1 (amended): whenever some candidate's sniffed type is outside the
allowed set, `save_pictures` raises the error carrying the first failing
candidate's detected type; the candidates strictly before the first
failing one have each been written to storage, and the failing candidate
and all later ones have not. -/
theorem C1_rejection_keeps_valid_prefix (env : FileEnv)
    (pics : List UploadCandidate)
    (hbad : ∃ p ∈ pics, sniffedOk env p = false) :
    (save_pictures env pics).2 =
      SaveOutcome.err (env.sniff
        (((pics.dropWhile (sniffedOk env)).headD ⟨"", []⟩).content.take 2048)) ∧
    (save_pictures env pics).1 =
      storedFiles env 0 (pics.takeWhile (sniffedOk env)) := by
  have h := savePicturesAux_first_bad env pics 0 hbad
  rw [save_pictures, h]
  exact ⟨rfl, rfl⟩

/-- C1 witness: a three-candidate batch whose middle candidate is invalid
keeps exactly the first candidate on disk. -/
theorem C1_witness :
    (∃ p ∈ [(⟨"a.jpg", [255]⟩ : UploadCandidate), ⟨"b.txt", [0]⟩, ⟨"c.png", [255]⟩],
        sniffedOk fileEnvDemo p = false) ∧
    (save_pictures fileEnvDemo
        [⟨"a.jpg", [255]⟩, ⟨"b.txt", [0]⟩, ⟨"c.png", [255]⟩]).2 =
      SaveOutcome.err (fileEnvDemo.sniff
        ((([(⟨"a.jpg", [255]⟩ : UploadCandidate), ⟨"b.txt", [0]⟩,
            ⟨"c.png", [255]⟩].dropWhile (sniffedOk fileEnvDemo)).headD
              ⟨"", []⟩).content.take 2048)) ∧
    (save_pictures fileEnvDemo
        [⟨"a.jpg", [255]⟩, ⟨"b.txt", [0]⟩, ⟨"c.png", [255]⟩]).1 =
      storedFiles fileEnvDemo 0
        ([(⟨"a.jpg", [255]⟩ : UploadCandidate), ⟨"b.txt", [0]⟩,
          ⟨"c.png", [255]⟩].takeWhile (sniffedOk fileEnvDemo)) ∧
    storedFiles fileEnvDemo 0
        ([(⟨"a.jpg", [255]⟩ : UploadCandidate), ⟨"b.txt", [0]⟩,
          ⟨"c.png", [255]⟩].takeWhile (sniffedOk fileEnvDemo)) =
      [("0a1b2c3d-4e5f-6071-8293-a4b5c6d7e8f9.jpg", [255])] := by
  have h := C1_rejection_keeps_valid_prefix fileEnvDemo
    [⟨"a.jpg", [255]⟩, ⟨"b.txt", [0]⟩, ⟨"c.png", [255]⟩] (by decide)
  exact ⟨by decide, h.1, h.2, by decide⟩

/-- Every file the loop writes passed its own MIME check. -/
theorem savePicturesAux_written_allowed (env : FileEnv) :
    ∀ (pics : List UploadCandidate) (i : Nat) (nm : String) (c : List Nat),
      (nm, c) ∈ (savePicturesAux env i pics).1 →
      allowed_mimes.contains (env.sniff (c.take 2048)) = true := by
  intro pics
  induction pics with
  | nil => intro i nm c hmem; simp [savePicturesAux] at hmem
  | cons p rest ih =>
    intro i nm c hmem
    by_cases hok : allowed_mimes.contains (env.sniff (p.content.take 2048)) = true
    · simp only [savePicturesAux] at hmem
      rw [if_pos hok] at hmem
      rcases List.mem_cons.mp hmem with heq | hmem2
      · injection heq with h1 h2
        subst h2
        exact hok
      · exact ih (i + 1) nm c hmem2
    · simp only [savePicturesAux] at hmem
      rw [if_neg hok] at hmem
      simp at hmem

/-- C9: a candidate's file appears among the files written by
`save_pictures` only if the MIME type sniffed from its leading bytes is in
the allowed set; nothing with a disallowed sniffed type is ever written. -/
theorem C9_written_implies_allowed (env : FileEnv) (pics : List UploadCandidate)
    (nm : String) (c : List Nat)
    (hmem : (nm, c) ∈ (save_pictures env pics).1) :
    env.sniff (c.take 2048) ∈ allowed_mimes := by
  have h := savePicturesAux_written_allowed env pics 0 nm c hmem
  simpa using h

/-- C9 witness: the one file written in a valid batch has an allowed
sniffed type. -/
theorem C9_witness :
    ("0a1b2c3d-4e5f-6071-8293-a4b5c6d7e8f9.jpg", [255, 216]) ∈
        (save_pictures fileEnvDemo [⟨"a.jpg", [255, 216]⟩]).1 ∧
    fileEnvDemo.sniff ([255, 216].take 2048) ∈ allowed_mimes := by
  refine ⟨by decide, ?_⟩
  exact C9_written_implies_allowed fileEnvDemo [⟨"a.jpg", [255, 216]⟩]
    "0a1b2c3d-4e5f-6071-8293-a4b5c6d7e8f9.jpg" [255, 216] (by decide)

/-- Concatenating strings concatenates their character lists. -/
theorem strToListAppend (a b : String) : (a ++ b).toList = a.toList ++ b.toList := by
  cases a
  cases b
  rfl

/-- Rebuilding a string from its character list is the identity. -/
theorem strMkToList (s : String) : String.mk s.toList = s := by
  cases s
  rfl

/-- A uuid-shaped token followed by one of the four allowed lowercase
extensions matches the spec's stored-name pattern. -/
theorem uuid_ext_matches (u e : String)
    (hu : isUuidLike u = true)
    (he : storedExts.contains e = true) :
    matchesStoredPattern (u ++ e) = true := by
  have hu' := hu
  unfold isUuidLike at hu'
  rw [Bool.and_eq_true] at hu'
  obtain ⟨hlen, hall⟩ := hu'
  have hlen' : u.toList.length = 36 := by simpa using hlen
  unfold matchesStoredPattern
  rw [strToListAppend]
  rw [List.take_left' hlen', List.drop_left' hlen', strMkToList]
  rw [Bool.and_eq_true]
  exact ⟨hall, he⟩

/-- Every name returned by a successful run of the loop is some uuid of
the stream concatenated with the `splitext` extension of some candidate
of the batch. -/
theorem savePicturesAux_ok_names (env : FileEnv) :
    ∀ (pics : List UploadCandidate) (i : Nat) (names : List String),
      (savePicturesAux env i pics).2 = SaveOutcome.ok names →
      ∀ nm ∈ names, ∃ j p, p ∈ pics ∧ nm = env.uuids j ++ splitextExt p.filename := by
  intro pics
  induction pics with
  | nil =>
    intro i names h nm hnm
    simp [savePicturesAux] at h
    subst h
    simp at hnm
  | cons p rest ih =>
    intro i names h nm hnm
    by_cases hok : allowed_mimes.contains (env.sniff (p.content.take 2048)) = true
    · simp only [savePicturesAux] at h
      rw [if_pos hok] at h
      cases hr : (savePicturesAux env (i + 1) rest).2 with
      | ok ns =>
        rw [hr] at h
        simp at h
        subst h
        rcases List.mem_cons.mp hnm with rfl | hnm2
        · exact ⟨i, p, List.mem_cons_self p rest, rfl⟩
        · obtain ⟨j, x, hx, hxe⟩ := ih (i + 1) ns hr nm hnm2
          exact ⟨j, x, List.mem_cons_of_mem p hx, hxe⟩
      | err d =>
        rw [hr] at h
        simp at h
    · simp only [savePicturesAux] at h
      rw [if_neg hok] at h
      simp at h

/-- C3 counterexample: a successful call whose candidate is a genuine JPEG
but carries a `.txt` client filename returns a stored name that fails the
spec's pattern. -/
theorem C3_counterexample :
    (save_pictures fileEnvDemo [⟨"evil.txt", [255]⟩]).2 =
      SaveOutcome.ok ["0a1b2c3d-4e5f-6071-8293-a4b5c6d7e8f9.txt"] ∧
    matchesStoredPattern "0a1b2c3d-4e5f-6071-8293-a4b5c6d7e8f9.txt" = false := by
  exact ⟨by decide, by decide⟩

/-- C3 (amended): every name returned by a successful `save_pictures` call
is the 36-character uuid string concatenated with the extension taken
verbatim (case included) from the original filename; it matches the
pattern `^[0-9a-f-]{36}\.(jpg|jpeg|png|gif)$` whenever that original
extension is one of `.jpg`, `.jpeg`, `.png`, `.gif` in lowercase. -/
theorem C3_names_match_when_ext_allowed (env : FileEnv)
    (pics : List UploadCandidate) (names : List String)
    (hu : ∀ i, isUuidLike (env.uuids i) = true)
    (hext : ∀ p ∈ pics, storedExts.contains (splitextExt p.filename) = true)
    (hok : (save_pictures env pics).2 = SaveOutcome.ok names) :
    ∀ nm ∈ names, matchesStoredPattern nm = true := by
  intro nm hnm
  obtain ⟨j, p, hp, rfl⟩ := savePicturesAux_ok_names env pics 0 names hok nm hnm
  exact uuid_ext_matches _ _ (hu j) (hext p hp)

/-- The demo uuid stream is uuid-shaped at every index. -/
theorem uuidDemo_uuidLike (i : Nat) : isUuidLike (fileEnvDemo.uuids i) = true :=
  show isUuidLike "0a1b2c3d-4e5f-6071-8293-a4b5c6d7e8f9" = true by decide

/-- Each candidate of the C3 demo batch has an allowed lowercase extension. -/
theorem c3DemoExts :
    ∀ p ∈ [(⟨"a.jpg", [255]⟩ : UploadCandidate), ⟨"b.png", [255]⟩],
      storedExts.contains (splitextExt p.filename) = true := by decide

/-- C3 witness: a two-candidate batch with lowercase allowed extensions
yields names matching the pattern. -/
theorem C3_witness :
    (∀ i, isUuidLike (fileEnvDemo.uuids i) = true) ∧
    (save_pictures fileEnvDemo [⟨"a.jpg", [255]⟩, ⟨"b.png", [255]⟩]).2 =
      SaveOutcome.ok ["0a1b2c3d-4e5f-6071-8293-a4b5c6d7e8f9.jpg",
        "0a1b2c3d-4e5f-6071-8293-a4b5c6d7e8f9.png"] ∧
    matchesStoredPattern "0a1b2c3d-4e5f-6071-8293-a4b5c6d7e8f9.jpg" = true ∧
    matchesStoredPattern "0a1b2c3d-4e5f-6071-8293-a4b5c6d7e8f9.png" = true := by
  refine ⟨uuidDemo_uuidLike, by decide, ?_, ?_⟩
  · exact C3_names_match_when_ext_allowed fileEnvDemo
      [⟨"a.jpg", [255]⟩, ⟨"b.png", [255]⟩]
      ["0a1b2c3d-4e5f-6071-8293-a4b5c6d7e8f9.jpg",
        "0a1b2c3d-4e5f-6071-8293-a4b5c6d7e8f9.png"]
      uuidDemo_uuidLike c3DemoExts (by decide)
      "0a1b2c3d-4e5f-6071-8293-a4b5c6d7e8f9.jpg" (by decide)
  · exact C3_names_match_when_ext_allowed fileEnvDemo
      [⟨"a.jpg", [255]⟩, ⟨"b.png", [255]⟩]
      ["0a1b2c3d-4e5f-6071-8293-a4b5c6d7e8f9.jpg",
        "0a1b2c3d-4e5f-6071-8293-a4b5c6d7e8f9.png"]
      uuidDemo_uuidLike c3DemoExts (by decide)
      "0a1b2c3d-4e5f-6071-8293-a4b5c6d7e8f9.png" (by decide)

/-- C8: a candidate whose bytes sniff as JPEG but whose client filename
ends in `.png` is accepted (classification uses content, not extension)
and stored under the generated name carrying the `.png` extension of the
original filename, not one derived from the detected type. -/
theorem C8_sniffed_type_accepts_ext_preserved (env : FileEnv)
    (p : UploadCandidate)
    (hsniff : env.sniff (p.content.take 2048) = "image/jpeg")
    (hext : splitextExt p.filename = ".png") :
    save_pictures env [p] =
      ([(env.uuids 0 ++ ".png", p.content)],
        SaveOutcome.ok [env.uuids 0 ++ ".png"]) := by
  have hcc : allowed_mimes.contains (env.sniff (p.content.take 2048)) = true := by
    rw [hsniff]; decide
  simp only [save_pictures, savePicturesAux]
  rw [if_pos hcc, hext]

/-- C8 witness: a concrete JPEG-sniffing byte stream named `photo.png` is
stored as `<uuid>.png`. -/
theorem C8_witness :
    fileEnvDemo.sniff ([255, 216, 255, 224].take 2048) = "image/jpeg" ∧
    splitextExt "photo.png" = ".png" ∧
    save_pictures fileEnvDemo [⟨"photo.png", [255, 216, 255, 224]⟩] =
      ([("0a1b2c3d-4e5f-6071-8293-a4b5c6d7e8f9.png", [255, 216, 255, 224])],
        SaveOutcome.ok ["0a1b2c3d-4e5f-6071-8293-a4b5c6d7e8f9.png"]) := by
  refine ⟨by decide, by decide, ?_⟩
  rw [C8_sniffed_type_accepts_ext_preserved fileEnvDemo
    ⟨"photo.png", [255, 216, 255, 224]⟩ (by decide) (by decide)]
  decide
